import Mathlib

/-!
Verification of the ErisPulse-Scaffold project generator
(`src/ErisPulseScaffold/cli.py`).

The generator is sequential string interpolation followed by `pathlib`
filesystem calls.  We embed it shallowly:

* Python strings are Lean `String`s; the handful of `str` methods the
  source uses (`replace` with one-character arguments, `split` on a
  one-character separator followed by `[-1]`, `lower`) are defined below
  on `List Char` exactly following Python semantics for those argument
  shapes.
* The filesystem is a record of existing directories and files; every
  `pathlib` call the source makes (`mkdir(parents=True, exist_ok=True)`,
  bare `mkdir()`, `write_text`) becomes an explicit operation returning
  the updated filesystem together with an optional raised error.
  Crucially, as in Python, an operation that raises leaves the mutations
  performed by *earlier* operations in place, so partial runs are
  observable.
* Sequencing of statements is `bindFS`: run the next statement unless an
  earlier one raised.
-/

namespace ErisPulseScaffold

/-- Python `s.replace(old, new)` for one-character `old`/`new` (the source
only calls `name.replace("-", "_")`): every occurrence of `old` is
replaced by `new`. -/
def pyReplaceChar (old new : Char) : List Char → List Char
  | [] => []
  | c :: rest => (if c = old then new else c) :: pyReplaceChar old new rest

/-- Python `s.split(sep)` for a one-character separator (the source only
calls `name.split('-')`): the list of (possibly empty) pieces between
occurrences of `sep`.  `"".split('-') = [""]`, `"-".split('-') = ["", ""]`. -/
def pySplitChar (sep : Char) : List Char → List (List Char)
  | [] => [[]]
  | c :: rest =>
    if c = sep then [] :: pySplitChar sep rest
    else
      match pySplitChar sep rest with
      | [] => [[c]]
      | h :: t => (c :: h) :: t

/-- Python list indexing `xs[-1]` on the (always nonempty) result of
`split`: the last element. -/
def pyLast : List (List Char) → List Char
  | [] => []
  | [x] => x
  | _ :: x :: xs => pyLast (x :: xs)

/-- Python `str.lower()` restricted to ASCII, which is all the generator
feeds it (`Char.toLower` lowercases exactly `A`–`Z`). -/
def pyLower (s : List Char) : List Char := s.map Char.toLower

/-- `project_info['name'].replace("-", "_")` — the package identifier,
used verbatim by all three creators (cli.py lines 135, 162, 227, 255,
331, 359). -/
def pkgName (name : String) : String := ⟨pyReplaceChar '-' '_' name.data⟩

/-- `project_info['name'].split('-')[-1]` — the short name, used verbatim
by all three creators (cli.py lines 162, 183, 255, 276, 359, 380, 449,
453, 498). -/
def shortName (name : String) : String := ⟨pyLast (pySplitChar '-' name.data)⟩

/-- `project_info['name'].split('-')[-1].lower()` (cli.py lines 255, 276,
449). -/
def shortNameLower (name : String) : String :=
  ⟨pyLower (pyLast (pySplitChar '-' name.data))⟩

/-- Modelled from the spec: "the package identifier is always `name` with
every hyphen replaced by underscore". -/
def specPackageId (name : String) : String :=
  ⟨name.data.map (fun c => if c = '-' then '_' else c)⟩

/-- Modelled from the spec: "the short name is always the substring after
the final hyphen (or the whole name if no hyphen is present)" — i.e. the
maximal hyphen-free suffix of the name. -/
def specShortName (name : String) : String :=
  ⟨(name.data.reverse.takeWhile (fun c => c ≠ '-')).reverse⟩

/-- The answers collected by `_collect_project_info` (cli.py lines 67–75).
Python stores them in a `dict`; the keys are fixed, so a record is the
faithful shape. -/
structure ProjectInfo where
  type : String
  name : String
  version : String
  description : String
  author_name : String
  author_email : String
  homepage : String
deriving Repr, DecidableEq

/-! ## Filesystem model -/

/-- A filesystem path, one component per directory level.  The source
builds every path with `/` on `pathlib.Path`, which is list append
here. -/
abbrev Path := List String

/-- The filesystem: the set of existing directories and the existing
files with their contents.  `files` keeps insertion order, which is the
order the generator wrote them in. -/
structure FS where
  dirs : List Path
  files : List (Path × String)
deriving Repr, DecidableEq

/-- The exceptions the modelled `pathlib`/`dict` operations can raise. -/
inductive PyErr where
  | fileExists : Path → PyErr
  | fileNotFound : Path → PyErr
  | isADirectory : Path → PyErr
  | keyError : String → PyErr
deriving Repr, DecidableEq

def FS.isDir (fs : FS) (p : Path) : Bool := decide (p ∈ fs.dirs)

def FS.isFile (fs : FS) (p : Path) : Bool := decide (p ∈ fs.files.map Prod.fst)

/-- Python `Path.exists()`: a directory or a file is present at `p`. -/
def FS.pathExists (fs : FS) (p : Path) : Bool := fs.isDir p || fs.isFile p

/-- The result of one Python statement acting on the filesystem: the
filesystem after the statement (mutations persist even when an exception
is raised) plus the exception, if any. -/
abbrev FSRes := FS × Option PyErr

/-- Statement sequencing: run `f` unless an earlier statement raised, in
which case the exception propagates and the filesystem stays as the
failing statement left it. -/
def bindFS (r : FSRes) (f : FS → FSRes) : FSRes :=
  match r with
  | (fs, none) => f fs
  | (fs, some e) => (fs, some e)

/-- Record a directory if it is not already recorded. -/
def FS.addDir (fs : FS) (p : Path) : FS :=
  if fs.isDir p then fs else { fs with dirs := fs.dirs ++ [p] }

/-- All prefixes of `p`, shortest first: the chain of directories
`mkdir(parents=True)` ensures. -/
def ancestors (p : Path) : List Path :=
  (List.range (p.length + 1)).map (fun n => p.take n)

/-- `Path.mkdir(parents=True, exist_ok=True)` (cli.py line 90): raises
`FileExistsError` when a non-directory occupies `p`; otherwise creates
`p` and any missing ancestor and never complains about existing
directories. -/
def FS.mkdirParentsExistOk (fs : FS) (p : Path) : FSRes :=
  if fs.isFile p then (fs, some (.fileExists p))
  else ((ancestors p).foldl FS.addDir fs, none)

/-- Bare `Path.mkdir()` (cli.py lines 136, 228, 332): raises
`FileExistsError` when `p` already exists (directory or file), raises
`FileNotFoundError` when the parent directory is missing, otherwise
creates exactly `p`. -/
def FS.mkdir (fs : FS) (p : Path) : FSRes :=
  if fs.pathExists p then (fs, some (.fileExists p))
  else if fs.isDir p.dropLast then ({ fs with dirs := fs.dirs ++ [p] }, none)
  else (fs, some (.fileNotFound p))

/-- Replace any entry for `p` and append `(p, c)`: the effect of an
`open(..., "w")` write on our ordered file list. -/
def putFile (files : List (Path × String)) (p : Path) (c : String) :
    List (Path × String) :=
  files.filter (fun e => e.1 ≠ p) ++ [(p, c)]

/-- `Path.write_text(content)`: raises `IsADirectoryError` when a
directory occupies `p`, raises `FileNotFoundError` when the parent
directory is missing, and otherwise creates **or silently overwrites**
the file — Python performs no pre-existence check. -/
def FS.writeText (fs : FS) (p : Path) (c : String) : FSRes :=
  if fs.isDir p then (fs, some (.isADirectory p))
  else if fs.isDir p.dropLast then
    ({ fs with files := putFile fs.files p c }, none)
  else (fs, some (.fileNotFound p))

/-- The content a file holds, if any: the last write to `p` wins. -/
def FS.readText (fs : FS) (p : Path) : Option String :=
  ((fs.files.filter (fun e => e.1 = p)).map Prod.snd).getLast?

/-! ## Template contents

Each generator below is the literal f-string of the source, rendered as
Lean string concatenation.  Braces that are text in the generated files
are written with `\x7b`/`\x7d` escapes and apostrophes with `\x27`. -/

/-- The LICENSE text (cli.py lines 175–179, 268–272, 372–376 — identical
in all three creators). -/
def licenseText : String :=
  "MIT License\n\nCopyright (c) [year] [fullname]\n\nPermission is hereby granted..."

/-- The README content, `f"# {name}\n\n{description}"` (cli.py lines
168–171, 261–264, 365–368 — identical in all three creators). -/
def readmeText (info : ProjectInfo) : String :=
  "# " ++ info.name ++ "\n\n" ++ info.description

namespace ModuleCreator

/-- The entry-point registration key of the module manifest: the first
interpolation of cli.py line 162, `project_info['name'].split('-')[-1]`. -/
def entryKey (info : ProjectInfo) : String := shortName info.name

/-- The in-package symbol the module manifest's entry-point value names:
the literal `:Main` suffix of cli.py line 162. -/
def entrySymbol : String := "Main"

/-- `_create_pyproject`'s f-string (cli.py lines 146–163). -/
def pyprojectText (info : ProjectInfo) : String :=
  "[project]\n" ++
  "name = \"" ++ info.name ++ "\"\n" ++
  "version = \"" ++ info.version ++ "\"\n" ++
  "description = \"" ++ info.description ++ "\"\n" ++
  "readme = \"README.md\"\n" ++
  "requires-python = \">=3.9\"\n" ++
  "license = \x7b file = \"LICENSE\" \x7d\n" ++
  "authors = [ \x7b name = \"" ++ info.author_name ++ "\", email = \"" ++
    info.author_email ++ "\" \x7d ]\n" ++
  "\n" ++
  "dependencies = [\n" ++
  "]\n" ++
  "\n" ++
  "[project.urls]\n" ++
  "\"homepage\" = \"" ++ info.homepage ++ "\"\n" ++
  "\n" ++
  "[project.entry-points.\"erispulse.module\"]\n" ++
  "\"" ++ entryKey info ++ "\" = \"" ++ pkgName info.name ++ ":" ++
    entrySymbol ++ "\"\n"

/-- `_create_core_file`'s f-string (cli.py lines 184–215); `module_name`
is `project_info['name'].split('-')[-1]` (line 183). -/
def coreText (info : ProjectInfo) : String :=
  let module_name := shortName info.name
  "# 你也可以直接导入对应的模块\n" ++
  "# from ErisPulse import sdk\n" ++
  "# from ErisPulse.Core import logger, env, raiserr, adapter\n" ++
  "\n" ++
  "class Main:\n" ++
  "    def __init__(self, sdk):    # 这里也可以不接受sdk参数\n" ++
  "        self.sdk = sdk\n" ++
  "        self.env = self.sdk.env\n" ++
  "        self.logger = self.sdk.logger\n" ++
  "        \n" ++
  "        self.logger.info(\"" ++ module_name ++ " 初始化完成\")\n" ++
  "        self.config = self._load_config()\n" ++
  "    \n" ++
  "    # 加载配置方法，你需要在这里进行必要的配置加载逻辑\n" ++
  "    def _load_config(self):\n" ++
  "        _config = self.env.getConfig(\"" ++ module_name ++ "\", \x7b\x7d)\n" ++
  "        if _config is None:\n" ++
  "            default_config = \x7b\n" ++
  "                \"key\": \"value\",\n" ++
  "                \"key2\": [1, 2, 3],\n" ++
  "                \"key3\": \x7b\n" ++
  "                    \"key4\": \"value4\"\n" ++
  "                \x7d\n" ++
  "            \x7d\n" ++
  "            self.env.setConfig(\"" ++ module_name ++ "\", default_config)\n" ++
  "            return default_config\n" ++
  "        return _config\n" ++
  "            \n" ++
  "    def hello(self):\n" ++
  "        self.logger.info(\"Hello World!\")\n" ++
  "        # 其它模块可以通过 sdk." ++ module_name ++ ".hello() 调用此方法\n"

/-- `__init__.py` content, the literal string of cli.py line 220. -/
def initText : String := "from .Core import Main"

def _create_pyproject (base_dir : Path) (info : ProjectInfo) (fs : FS) : FSRes :=
  fs.writeText (base_dir ++ ["pyproject.toml"]) (pyprojectText info)

def _create_readme (base_dir : Path) (info : ProjectInfo) (fs : FS) : FSRes :=
  fs.writeText (base_dir ++ ["README.md"]) (readmeText info)

def _create_license (base_dir : Path) (fs : FS) : FSRes :=
  fs.writeText (base_dir ++ ["LICENSE"]) licenseText

def _create_core_file (module_dir : Path) (info : ProjectInfo) (fs : FS) : FSRes :=
  fs.writeText (module_dir ++ ["Core.py"]) (coreText info)

def _create_init_file (module_dir : Path) (_info : ProjectInfo) (fs : FS) : FSRes :=
  fs.writeText (module_dir ++ ["__init__.py"]) initText

/-- `ModuleCreator.create` (cli.py lines 133–142): make the package
subdirectory with a bare `mkdir()`, then write the five files in
order. -/
def create (base_dir : Path) (info : ProjectInfo) (fs : FS) : FSRes :=
  let module_dir := base_dir ++ [pkgName info.name]
  bindFS (fs.mkdir module_dir) fun fs1 =>
  bindFS (_create_pyproject base_dir info fs1) fun fs2 =>
  bindFS (_create_readme base_dir info fs2) fun fs3 =>
  bindFS (_create_license base_dir fs3) fun fs4 =>
  bindFS (_create_core_file module_dir info fs4) fun fs5 =>
  _create_init_file module_dir info fs5

end ModuleCreator

namespace CLICreator

/-- The entry-point registration key of the cli manifest: the first
interpolation of cli.py line 255,
`project_info['name'].split('-')[-1].lower()`. -/
def entryKey (info : ProjectInfo) : String := shortNameLower info.name

/-- The in-package symbol the cli manifest's entry-point value names:
the literal `:cli_register` suffix of cli.py line 255. -/
def entrySymbol : String := "cli_register"

/-- `_create_pyproject`'s f-string (cli.py lines 238–256). -/
def pyprojectText (info : ProjectInfo) : String :=
  "[project]\n" ++
  "name = \"" ++ info.name ++ "\"\n" ++
  "version = \"" ++ info.version ++ "\"\n" ++
  "description = \"" ++ info.description ++ "\"\n" ++
  "readme = \"README.md\"\n" ++
  "requires-python = \">=3.9\"\n" ++
  "license = \x7b file = \"LICENSE\" \x7d\n" ++
  "authors = [ \x7b name = \"" ++ info.author_name ++ "\", email = \"" ++
    info.author_email ++ "\" \x7d ]\n" ++
  "\n" ++
  "dependencies = [\n" ++
  "    \"ErisPulse>=2.1.6\"\n" ++
  "]\n" ++
  "\n" ++
  "[project.urls]\n" ++
  "\"homepage\" = \"" ++ info.homepage ++ "\"\n" ++
  "\n" ++
  "[project.entry-points.\"erispulse.cli\"]\n" ++
  "\"" ++ entryKey info ++ "\" = \"" ++ pkgName info.name ++ ":" ++
    entrySymbol ++ "\"\n"

/-- `_create_cli_file`'s f-string (cli.py lines 277–319); `command_name`
is `project_info['name'].split('-')[-1].lower()` (line 276). -/
def cliText (info : ProjectInfo) : String :=
  let command_name := shortNameLower info.name
  "import argparse\n" ++
  "from typing import Any\n" ++
  "from rich.panel import Panel\n" ++
  "from rich.console import Console\n" ++
  "\n" ++
  "def cli_register(subparsers: Any, console: Console) -> None:\n" ++
  "    \"\"\"\n" ++
  "    注册自定义CLI命令\n" ++
  "    \n" ++
  "    参数:\n" ++
  "        subparsers: argparse的子命令解析器\n" ++
  "        console: 主CLI提供的控制台输出实例\n" ++
  "    \"\"\"\n" ++
  "    # 创建命令解析器\n" ++
  "    parser = subparsers.add_parser(\n" ++
  "        \x27" ++ command_name ++ "\x27,  # 命令名称\n" ++
  "        help=\x27" ++ info.description ++ "\x27\n" ++
  "    )\n" ++
  "    \n" ++
  "    # 添加参数\n" ++
  "    parser.add_argument(\n" ++
  "        \x27--option\x27,\n" ++
  "        type=str,\n" ++
  "        default=\x27default\x27,\n" ++
  "        help=\x27选项描述\x27\n" ++
  "    )\n" ++
  "    \n" ++
  "    # 命令处理函数\n" ++
  "    def handle_command(args: argparse.Namespace):\n" ++
  "        try:\n" ++
  "            console.print(Panel(\"命令开始执行\", style=\"info\"))\n" ++
  "            \n" ++
  "            # 你的命令逻辑\n" ++
  "            console.print(f\"执行操作，选项值: \x7bargs.option\x7d\")\n" ++
  "            \n" ++
  "            console.print(Panel(\"命令执行完成\", style=\"success\"))\n" ++
  "        except Exception as e:\n" ++
  "            console.print(Panel(f\"错误: \x7be\x7d\", style=\"error\"))\n" ++
  "            raise\n" ++
  "    \n" ++
  "    # 设置处理函数\n" ++
  "    parser.set_defaults(func=handle_command)\n"

/-- `__init__.py` content, the literal string of cli.py line 324. -/
def initText : String := "from .cli import cli_register"

def _create_pyproject (base_dir : Path) (info : ProjectInfo) (fs : FS) : FSRes :=
  fs.writeText (base_dir ++ ["pyproject.toml"]) (pyprojectText info)

def _create_readme (base_dir : Path) (info : ProjectInfo) (fs : FS) : FSRes :=
  fs.writeText (base_dir ++ ["README.md"]) (readmeText info)

def _create_license (base_dir : Path) (fs : FS) : FSRes :=
  fs.writeText (base_dir ++ ["LICENSE"]) licenseText

def _create_cli_file (module_dir : Path) (info : ProjectInfo) (fs : FS) : FSRes :=
  fs.writeText (module_dir ++ ["cli.py"]) (cliText info)

def _create_init_file (module_dir : Path) (_info : ProjectInfo) (fs : FS) : FSRes :=
  fs.writeText (module_dir ++ ["__init__.py"]) initText

/-- `CLICreator.create` (cli.py lines 225–234). -/
def create (base_dir : Path) (info : ProjectInfo) (fs : FS) : FSRes :=
  let module_dir := base_dir ++ [pkgName info.name]
  bindFS (fs.mkdir module_dir) fun fs1 =>
  bindFS (_create_pyproject base_dir info fs1) fun fs2 =>
  bindFS (_create_readme base_dir info fs2) fun fs3 =>
  bindFS (_create_license base_dir fs3) fun fs4 =>
  bindFS (_create_cli_file module_dir info fs4) fun fs5 =>
  _create_init_file module_dir info fs5

end CLICreator

namespace AdapterCreator

/-- The entry-point registration key of the adapter manifest: the first
interpolation of cli.py line 359, `project_info['name'].split('-')[-1]`. -/
def entryKey (info : ProjectInfo) : String := shortName info.name

/-- The in-package symbol the adapter manifest's entry-point value names:
the third interpolation of cli.py line 359,
`project_info['name'].split('-')[-1]`. -/
def entrySymbol (info : ProjectInfo) : String := shortName info.name

/-- `_create_pyproject`'s f-string (cli.py lines 343–360). -/
def pyprojectText (info : ProjectInfo) : String :=
  "[project]\n" ++
  "name = \"" ++ info.name ++ "\"\n" ++
  "version = \"" ++ info.version ++ "\"\n" ++
  "description = \"" ++ info.description ++ "\"\n" ++
  "readme = \"README.md\"\n" ++
  "requires-python = \">=3.9\"\n" ++
  "license = \x7b file = \"LICENSE\" \x7d\n" ++
  "authors = [ \x7b name = \"" ++ info.author_name ++ "\", email = \"" ++
    info.author_email ++ "\" \x7d ]\n" ++
  "\n" ++
  "dependencies = [\n" ++
  "]\n" ++
  "\n" ++
  "[project.urls]\n" ++
  "\"homepage\" = \"" ++ info.homepage ++ "\"\n" ++
  "\n" ++
  "[project.entry-points.\"erispulse.adapter\"]\n" ++
  "\"" ++ entryKey info ++ "\" = \"" ++ pkgName info.name ++ ":" ++
    entrySymbol info ++ "\"\n"

/-- `_create_core_file`'s f-string (cli.py lines 381–444); `adapter_name`
is `project_info['name'].split('-')[-1]` (line 380). -/
def coreText (info : ProjectInfo) : String :=
  let adapter_name := shortName info.name
  "import asyncio\n" ++
  "from typing import Optional\n" ++
  "from ErisPulse.Core import BaseAdapter\n" ++
  "# 你也可以直接导入对应的模块\n" ++
  "# from ErisPulse import sdk\n" ++
  "# from ErisPulse.Core import logger, env, raiserr, adapter\n" ++
  "\n" ++
  "class " ++ adapter_name ++ "(BaseAdapter):\n" ++
  "    def __init__(self, sdk):    # 这里也可以不接受sdk参数\n" ++
  "        self.sdk = sdk\n" ++
  "        self.env = self.sdk.env\n" ++
  "        self.logger = self.sdk.logger\n" ++
  "        \n" ++
  "        self.logger.info(\"" ++ adapter_name ++ " 初始化完成\")\n" ++
  "        self.config = self._load_config()\n" ++
  "    \n" ++
  "    # 加载配置方法，你需要在这里进行必要的配置加载逻辑\n" ++
  "    def _load_config(self):\n" ++
  "        _config = self.env.getConfig(\"" ++ adapter_name ++ "\", \x7b\x7d)\n" ++
  "        if _config is None:\n" ++
  "            default_config = \x7b\n" ++
  "                \"mode\": \"server\",\n" ++
  "                \"server\": \x7b\n" ++
  "                    \"path\": \"/webhook\",\n" ++
  "                \x7d,\n" ++
  "                \"client\": \x7b\n" ++
  "                    \"url\": \"http://127.0.0.1:8080\",\n" ++
  "                    \"token\": \"\"\n" ++
  "                \x7d\n" ++
  "            \x7d\n" ++
  "            self.env.setConfig(\"" ++ adapter_name ++ "\", default_config)\n" ++
  "            return default_config\n" ++
  "        return _config\n" ++
  "    \n" ++
  "    class Send(BaseAdapter.Send):\n" ++
  "        def Text(self, text: str):\n" ++
  "            return asyncio.create_task(\n" ++
  "                self._adapter.call_api(\n" ++
  "                    endpoint=\"/send\",\n" ++
  "                    content=text,\n" ++
  "                    recvId=self._target_id,\n" ++
  "                    recvType=self._target_type\n" ++
  "                )\n" ++
  "            )\n" ++
  "            \n" ++
  "        def Image(self, file: bytes):\n" ++
  "            return asyncio.create_task(\n" ++
  "                self._adapter.call_api(\n" ++
  "                    endpoint=\"/send_image\",\n" ++
  "                    file=file,\n" ++
  "                    recvId=self._target_id,\n" ++
  "                    recvType=self._target_type\n" ++
  "                )\n" ++
  "            )\n" ++
  "\n" ++
  "    async def call_api(self, endpoint: str, **params):\n" ++
  "        raise NotImplementedError()\n" ++
  "\n" ++
  "    async def start(self):\n" ++
  "        raise NotImplementedError()\n" ++
  "        \n" ++
  "    async def shutdown(self):\n" ++
  "        raise NotImplementedError()\n"

/-- `_create_converter_file`'s f-string (cli.py lines 450–493); here
`adapter_name` is the **lowercased** short name (line 449) while the
class name interpolates the short name unlowered (line 453). -/
def converterText (info : ProjectInfo) : String :=
  let adapter_name := shortNameLower info.name
  "import time\n" ++
  "from typing import Optional\n" ++
  "\n" ++
  "class " ++ shortName info.name ++ "Converter:\n" ++
  "    def convert(self, raw_event: dict) -> Optional[dict]:\n" ++
  "        \"\"\"将平台原生事件转换为OneBot12标准格式\"\"\"\n" ++
  "        if not isinstance(raw_event, dict):\n" ++
  "            return None\n" ++
  "\n" ++
  "        # 基础事件结构\n" ++
  "        onebot_event = \x7b\n" ++
  "            \"id\": str(raw_event.get(\"event_id\", \"generated_id\")),\n" ++
  "            \"time\": int(time.time()),\n" ++
  "            \"type\": \"\",  # message/notice/request/meta_event\n" ++
  "            \"detail_type\": \"\",\n" ++
  "            \"platform\": \"" ++ adapter_name ++ "\",\n" ++
  "            \"self\": \x7b\n" ++
  "                \"platform\": \"" ++ adapter_name ++ "\",\n" ++
  "                \"user_id\": str(raw_event.get(\"bot_id\", \"\"))\n" ++
  "            \x7d,\n" ++
  "            \"" ++ adapter_name ++ "_raw\": raw_event  # 保留原始数据\n" ++
  "        \x7d\n" ++
  "\n" ++
  "        # 根据事件类型分发处理\n" ++
  "        event_type = raw_event.get(\"type\")\n" ++
  "        if event_type == \"message\":\n" ++
  "            return self._handle_message(raw_event, onebot_event)\n" ++
  "        elif event_type == \"notice\":\n" ++
  "            return self._handle_notice(raw_event, onebot_event)\n" ++
  "        \n" ++
  "        return None\n" ++
  "\n" ++
  "    def _handle_message(self, raw_event: dict, onebot_event: dict) -> dict:\n" ++
  "        \"\"\"处理消息事件\"\"\"\n" ++
  "        onebot_event[\"type\"] = \"message\"\n" ++
  "        # 添加你的消息处理逻辑\n" ++
  "        return onebot_event\n" ++
  "\n" ++
  "    def _handle_notice(self, raw_event: dict, onebot_event: dict) -> dict:\n" ++
  "        \"\"\"处理通知事件\"\"\"\n" ++
  "        onebot_event[\"type\"] = \"notice\"\n" ++
  "        # 添加你的通知处理逻辑\n" ++
  "        return onebot_event\n"

/-- `__init__.py` content, the f-string of cli.py lines 498–499:
`f"from .Core import {adapter_name}"`. -/
def initText (info : ProjectInfo) : String :=
  "from .Core import " ++ shortName info.name

def _create_pyproject (base_dir : Path) (info : ProjectInfo) (fs : FS) : FSRes :=
  fs.writeText (base_dir ++ ["pyproject.toml"]) (pyprojectText info)

def _create_readme (base_dir : Path) (info : ProjectInfo) (fs : FS) : FSRes :=
  fs.writeText (base_dir ++ ["README.md"]) (readmeText info)

def _create_license (base_dir : Path) (fs : FS) : FSRes :=
  fs.writeText (base_dir ++ ["LICENSE"]) licenseText

def _create_core_file (module_dir : Path) (info : ProjectInfo) (fs : FS) : FSRes :=
  fs.writeText (module_dir ++ ["Core.py"]) (coreText info)

def _create_converter_file (module_dir : Path) (info : ProjectInfo) (fs : FS) : FSRes :=
  fs.writeText (module_dir ++ ["Converter.py"]) (converterText info)

def _create_init_file (module_dir : Path) (info : ProjectInfo) (fs : FS) : FSRes :=
  fs.writeText (module_dir ++ ["__init__.py"]) (initText info)

/-- `AdapterCreator.create` (cli.py lines 329–339). -/
def create (base_dir : Path) (info : ProjectInfo) (fs : FS) : FSRes :=
  let module_dir := base_dir ++ [pkgName info.name]
  bindFS (fs.mkdir module_dir) fun fs1 =>
  bindFS (_create_pyproject base_dir info fs1) fun fs2 =>
  bindFS (_create_readme base_dir info fs2) fun fs3 =>
  bindFS (_create_license base_dir fs3) fun fs4 =>
  bindFS (_create_core_file module_dir info fs4) fun fs5 =>
  bindFS (_create_converter_file module_dir info fs5) fun fs6 =>
  _create_init_file module_dir info fs6

end AdapterCreator

namespace ScaffoldGenerator

/-- The `creators` dictionary lookup of cli.py lines 92–98.  A missing
key raises Python's `KeyError`, modelled by `none` at the call site. -/
def creators (t : String) : Option (Path → ProjectInfo → FS → FSRes) :=
  if t = "module" then some ModuleCreator.create
  else if t = "cli" then some CLICreator.create
  else if t = "adapter" then some AdapterCreator.create
  else none

/-- Running the looked-up creator: `creators[project_info['type']]()` and
the call `creator.create(base_dir, project_info)` (cli.py lines 98–99).
A missing dictionary key raises `KeyError` with the requested key. -/
def runCreator (c : Option (Path → ProjectInfo → FS → FSRes)) (t : String)
    (base_dir : Path) (info : ProjectInfo) (fs : FS) : FSRes :=
  match c with
  | some creator => creator base_dir info fs
  | none => (fs, some (.keyError t))

/-- `_create_project_structure` (cli.py lines 87–101): computes
`base_dir = Path(output_dir) / project_info['name']`, creates it with
`mkdir(parents=True, exist_ok=True)`, **then** looks up the creator —
so an unknown type raises `KeyError` only after the base directory has
been created — and runs it.  `_display_result` only prints and is
omitted. -/
def _create_project_structure (output_dir : Path) (info : ProjectInfo)
    (fs : FS) : FSRes :=
  let base_dir := output_dir ++ [info.name]
  bindFS (fs.mkdirParentsExistOk base_dir) fun fs1 =>
    runCreator (creators info.type) info.type base_dir info fs1

/-- `_create_project_structure` together with its Python **return
value**: the function body has no `return` statement, so it returns
`None` — modelled as the second component, which is `none : Option
(List Path)` rather than a list of written paths. -/
def buildResult (output_dir : Path) (info : ProjectInfo) (fs : FS) :
    FSRes × Option (List Path) :=
  (_create_project_structure output_dir info fs, none)

/-- `handle_scaffold` (cli.py lines 35–49) after the prompt stage: when
`_collect_project_info` returned the empty dict (the user answered "no"
to the confirmation, cli.py lines 81–82), `if not project_info` is true
and the handler returns at once; otherwise it builds.  The prompt stage
itself is console I/O and is modelled by the `Option ProjectInfo`
argument. -/
def handle_scaffold (output_dir : Path) (collected : Option ProjectInfo)
    (fs : FS) : FSRes :=
  match collected with
  | none => (fs, none)
  | some info => _create_project_structure output_dir info fs

end ScaffoldGenerator

/-! ## Concrete sample inputs -/

/-- The §8 scenario input: a module named `ErisPulse-Weather` with the
prompt defaults. -/
def weatherInfo : ProjectInfo :=
  { type := "module", name := "ErisPulse-Weather", version := "1.0.0",
    description := "一个非常哇塞的ErisPulse项目", author_name := "yourname",
    author_email := "your@mail.com",
    homepage := "https://github.com/yourname/ErisPulse-Weather" }

/-- A `ProjectInfo` whose type is outside `{module, cli, adapter}`. -/
def weirdInfo : ProjectInfo :=
  { type := "plugin", name := "ErisPulse-Widget", version := "1.0.0",
    description := "d", author_name := "a", author_email := "e",
    homepage := "h" }

/-- A fresh filesystem: only the current directory exists. -/
def fsEmpty : FS := { dirs := [[]], files := [] }

/-- The target base directory already exists and is non-empty (it holds
an unrelated user file). -/
def fsBaseJunk : FS :=
  { dirs := [[], ["ErisPulse-Weather"]],
    files := [(["ErisPulse-Weather", "data.txt"], "user data")] }

/-- The target base directory exists and holds a stale `pyproject.toml`
from a previous partial run. -/
def fsStalePyproject : FS :=
  { dirs := [[], ["ErisPulse-Weather"]],
    files := [(["ErisPulse-Weather", "pyproject.toml"], "old contents")] }

/-- The nested package subdirectory already exists. -/
def fsPkgDir : FS :=
  { dirs := [[], ["ErisPulse-Weather"], ["ErisPulse-Weather", "ErisPulse_Weather"]],
    files := [] }

/-! ## Derived-identifier lemmas (claims C1 and C2) -/

theorem pyReplaceChar_eq_map (old new : Char) (s : List Char) :
    pyReplaceChar old new s = s.map (fun c => if c = old then new else c) := by
  induction s with
  | nil => rfl
  | cons c rest ih => simp [pyReplaceChar, ih]

theorem pySplitChar_ne_nil (sep : Char) (s : List Char) :
    pySplitChar sep s ≠ [] := by
  induction s with
  | nil => simp [pySplitChar]
  | cons c rest ih =>
    simp only [pySplitChar]
    split
    · simp
    · cases hr : pySplitChar sep rest with
      | nil => simp
      | cons h t => simp

theorem pySplitChar_of_not_mem (sep : Char) (s : List Char) (h : sep ∉ s) :
    pySplitChar sep s = [s] := by
  induction s with
  | nil => rfl
  | cons c rest ih =>
    have hc : ¬ c = sep := fun hc => h (hc ▸ List.mem_cons_self c rest)
    have hrest : sep ∉ rest := fun hm => h (List.mem_cons_of_mem c hm)
    simp [pySplitChar, hc, ih hrest]

theorem two_le_length_pySplitChar (sep : Char) (s : List Char) (h : sep ∈ s) :
    2 ≤ (pySplitChar sep s).length := by
  induction s with
  | nil => cases h
  | cons c rest ih =>
    by_cases hc : c = sep
    · have h1 : 1 ≤ (pySplitChar sep rest).length :=
        List.length_pos.mpr (pySplitChar_ne_nil sep rest)
      simp only [pySplitChar, if_pos hc, List.length_cons]
      omega
    · have hm : sep ∈ rest := by
        rcases List.mem_cons.mp h with h1 | h1
        · exact absurd h1.symm hc
        · exact h1
      have h2 := ih hm
      simp only [pySplitChar, if_neg hc]
      cases hr : pySplitChar sep rest with
      | nil => exact absurd hr (pySplitChar_ne_nil sep rest)
      | cons x xs =>
        rw [hr] at h2
        simpa using h2

theorem pyLast_cons_of_ne_nil (a : List Char) (l : List (List Char))
    (h : l ≠ []) : pyLast (a :: l) = pyLast l := by
  cases l with
  | nil => exact absurd rfl h
  | cons b t => rfl

theorem takeWhile_concat_of_neg {α : Type} (p : α → Bool) (a : α)
    (h : p a = false) (xs : List α) :
    (xs ++ [a]).takeWhile p = xs.takeWhile p := by
  induction xs with
  | nil => simp [List.takeWhile_cons, h]
  | cons x xs ih =>
    by_cases hx : p x
    · simp [List.takeWhile_cons, hx, ih]
    · simp [List.takeWhile_cons, hx]

theorem takeWhile_append_of_all {α : Type} (p : α → Bool) (xs ys : List α)
    (h : ∀ x ∈ xs, p x = true) :
    (xs ++ ys).takeWhile p = xs ++ ys.takeWhile p := by
  induction xs with
  | nil => simp
  | cons x xs ih =>
    have hx : p x = true := h x (List.mem_cons_self x xs)
    simp [List.takeWhile_cons, hx, ih (fun y hy => h y (List.mem_cons_of_mem x hy))]

theorem takeWhile_append_of_mem_neg {α : Type} (p : α → Bool) (a : α)
    (xs ys : List α) (ha : a ∈ xs) (h : p a = false) :
    (xs ++ ys).takeWhile p = xs.takeWhile p := by
  induction xs with
  | nil => cases ha
  | cons x xs ih =>
    by_cases hx : p x
    · have hax : a ∈ xs := by
        rcases List.mem_cons.mp ha with h1 | h1
        · rw [h1] at h; rw [h] at hx; cases hx
        · exact h1
      simp [List.takeWhile_cons, hx, ih hax]
    · simp [List.takeWhile_cons, hx]

/-- The last piece of the `'-'`-split is the maximal separator-free
suffix. -/
theorem pyLast_pySplitChar (sep : Char) (s : List Char) :
    pyLast (pySplitChar sep s) =
      (s.reverse.takeWhile (fun c => c ≠ sep)).reverse := by
  induction s with
  | nil => rfl
  | cons c rest ih =>
    by_cases hc : c = sep
    · subst hc
      have hsplit : pySplitChar c (c :: rest) = [] :: pySplitChar c rest := by
        simp [pySplitChar]
      rw [hsplit, pyLast_cons_of_ne_nil _ _ (pySplitChar_ne_nil c rest), ih,
        List.reverse_cons, takeWhile_concat_of_neg _ _ (by simp)]
    · by_cases hm : sep ∈ rest
      · have h2 := two_le_length_pySplitChar sep rest hm
        have hsplit : ∀ h t, pySplitChar sep rest = h :: t →
            pySplitChar sep (c :: rest) = (c :: h) :: t := by
          intro h t hht
          simp [pySplitChar, hc, hht]
        cases hr : pySplitChar sep rest with
        | nil => exact absurd hr (pySplitChar_ne_nil sep rest)
        | cons h t =>
          have ht : t ≠ [] := by
            rw [hr] at h2
            cases t with
            | nil => simp at h2
            | cons u us => simp
          rw [hsplit h t hr, pyLast_cons_of_ne_nil _ _ ht,
            ← pyLast_cons_of_ne_nil h t ht, ← hr, ih, List.reverse_cons,
            takeWhile_append_of_mem_neg _ sep _ _ (by simpa using hm) (by simp)]
      · have hnotc : sep ∉ (c :: rest) := by
          intro hmem
          rcases List.mem_cons.mp hmem with h1 | h1
          · exact hc h1.symm
          · exact hm h1
        rw [pySplitChar_of_not_mem sep _ hnotc]
        have hall : ∀ x ∈ rest.reverse, (fun d => decide (d ≠ sep)) x = true := by
          intro x hx
          have hxr : x ∈ rest := by simpa using hx
          simp only [decide_eq_true_eq]
          intro hxs
          exact hm (hxs ▸ hxr)
        rw [List.reverse_cons, takeWhile_append_of_all _ _ _ hall]
        simp [pyLast, List.takeWhile_cons, hc]

/-! ## Filesystem-operation lemmas -/

theorem FS.mkdir_ok (fs : FS) (p : Path)
    (h1 : fs.pathExists p = false) (h2 : fs.isDir p.dropLast = true) :
    fs.mkdir p = ({ fs with dirs := fs.dirs ++ [p] }, none) := by
  simp only [FS.mkdir, h1, h2]
  simp

theorem FS.mkdir_fails (fs : FS) (p : Path) (h : fs.pathExists p = true) :
    fs.mkdir p = (fs, some (.fileExists p)) := by
  simp [FS.mkdir, h]

theorem FS.writeText_ok (fs : FS) (p : Path) (c : String)
    (h1 : fs.isDir p = false) (h2 : fs.isDir p.dropLast = true) :
    fs.writeText p c = ({ fs with files := putFile fs.files p c }, none) := by
  simp only [FS.writeText, h1, h2]
  simp

theorem isDir_addDir (fs : FS) (q p : Path) :
    (fs.addDir q).isDir p = (fs.isDir p || decide (p = q)) := by
  by_cases hq : fs.isDir q
  · by_cases hpq : p = q
    · subst hpq
      simp [FS.addDir, hq]
    · simp [FS.addDir, hq, hpq]
  · have hq2 : q ∉ fs.dirs := by simpa [FS.isDir] using hq
    by_cases hp : p ∈ fs.dirs
    · simp [FS.addDir, FS.isDir, hq2, List.mem_append, hp]
    · by_cases hpq : p = q <;>
        simp [FS.addDir, FS.isDir, hq2, List.mem_append, hp, hpq]

theorem files_addDir (fs : FS) (q : Path) : (fs.addDir q).files = fs.files := by
  by_cases hq : fs.isDir q <;> simp [FS.addDir, hq]

theorem isDir_foldl_addDir (ps : List Path) (fs : FS) (p : Path) :
    ((ps.foldl FS.addDir fs).isDir p) = (fs.isDir p || decide (p ∈ ps)) := by
  induction ps generalizing fs with
  | nil => simp
  | cons q ps ih =>
    rw [List.foldl_cons, ih, isDir_addDir]
    by_cases hpq : p = q <;> simp [hpq]

theorem files_foldl_addDir (ps : List Path) (fs : FS) :
    (ps.foldl FS.addDir fs).files = fs.files := by
  induction ps generalizing fs with
  | nil => rfl
  | cons q ps ih => rw [List.foldl_cons, ih, files_addDir]

theorem isFile_foldl_addDir (ps : List Path) (fs : FS) (p : Path) :
    (ps.foldl FS.addDir fs).isFile p = fs.isFile p := by
  simp [FS.isFile, files_foldl_addDir]

theorem mem_ancestors_self (p : Path) : p ∈ ancestors p := by
  simp only [ancestors, List.mem_map, List.mem_range]
  exact ⟨p.length, by omega, List.take_length p⟩

theorem length_le_of_mem_ancestors (p q : Path) (h : q ∈ ancestors p) :
    q.length ≤ p.length := by
  simp only [ancestors, List.mem_map, List.mem_range] at h
  obtain ⟨n, _, rfl⟩ := h
  simp [List.length_take]

theorem not_mem_ancestors_of_longer (p q : Path)
    (h : p.length < q.length) : q ∉ ancestors p := by
  intro hm
  have := length_le_of_mem_ancestors p q hm
  omega

theorem FS.mkdirParentsExistOk_ok (fs : FS) (p : Path)
    (h : fs.isFile p = false) :
    fs.mkdirParentsExistOk p = ((ancestors p).foldl FS.addDir fs, none) := by
  simp [FS.mkdirParentsExistOk, h]

theorem append_singleton_ne (xs : Path) (a : String) : xs ++ [a] ≠ xs := by
  intro h
  have := congrArg List.length h
  simp at this

theorem ne_of_length_ne (xs ys : Path) (h : xs.length ≠ ys.length) :
    xs ≠ ys := by
  intro he
  exact h (he ▸ rfl)

theorem append_singleton_ne_of_ne (xs : Path) (a b : String) (h : a ≠ b) :
    xs ++ [a] ≠ xs ++ [b] := by
  intro he
  exact h (by simpa using he)

/-! ## `putFile` lemmas -/

theorem mem_putFile_self (files : List (Path × String)) (p : Path) (c : String) :
    (p, c) ∈ putFile files p c := by
  simp [putFile]

theorem mem_putFile_of_ne (files : List (Path × String)) (p : Path) (c : String)
    (q : Path) (d : String) (h : p ≠ q) (hm : (p, c) ∈ files) :
    (p, c) ∈ putFile files q d := by
  simp only [putFile, List.mem_append]
  left
  rw [List.mem_filter]
  exact ⟨hm, by simp [h]⟩

theorem filter_key_putFile_self (files : List (Path × String)) (p : Path)
    (c : String) :
    (putFile files p c).filter (fun e => e.1 = p) = [(p, c)] := by
  simp only [putFile, List.filter_append, List.filter_filter]
  have h1 : files.filter (fun e => decide (e.1 = p) && decide (e.1 ≠ p)) = [] := by
    rw [List.filter_congr (q := fun _ => false) ?_, List.filter_false]
    intro e _
    by_cases he : e.1 = p <;> simp [he]
  rw [h1]
  simp

theorem filter_key_putFile_ne (files : List (Path × String)) (p q : Path)
    (c : String) (h : q ≠ p) :
    (putFile files q c).filter (fun e => e.1 = p) =
      files.filter (fun e => e.1 = p) := by
  simp only [putFile, List.filter_append, List.filter_filter]
  have h1 : files.filter (fun e => decide (e.1 = p) && decide (e.1 ≠ q)) =
      files.filter (fun e => e.1 = p) := by
    apply List.filter_congr
    intro e _
    by_cases he : e.1 = p
    · simp [he, Ne.symm h]
    · simp [he]
  rw [h1]
  simp [h]

theorem readText_of_files_eq (fs : FS) (F : List (Path × String)) (p : Path)
    (c : String) (h : fs.files = putFile F p c) :
    fs.readText p = some c := by
  rw [FS.readText, h, filter_key_putFile_self]
  simp

theorem dropLast_snoc {α : Type} (xs : List α) (a : α) :
    (xs ++ [a]).dropLast = xs := by
  simp

/-! ## Symbolic runs of the three creators -/

/-- A successful `ModuleCreator.create` run: when the package
subdirectory does not exist yet and no directory occupies a target file
path, the five files are written in source order. -/
theorem module_create_ok (base : Path) (info : ProjectInfo) (fs : FS)
    (hbase : fs.isDir base = true)
    (hmd : fs.pathExists (base ++ [pkgName info.name]) = false)
    (hpy : fs.isDir (base ++ ["pyproject.toml"]) = false)
    (hpy2 : base ++ ["pyproject.toml"] ≠ base ++ [pkgName info.name])
    (hrd : fs.isDir (base ++ ["README.md"]) = false)
    (hrd2 : base ++ ["README.md"] ≠ base ++ [pkgName info.name])
    (hlc : fs.isDir (base ++ ["LICENSE"]) = false)
    (hlc2 : base ++ ["LICENSE"] ≠ base ++ [pkgName info.name])
    (hco : fs.isDir (base ++ [pkgName info.name] ++ ["Core.py"]) = false)
    (hin : fs.isDir (base ++ [pkgName info.name] ++ ["__init__.py"]) = false) :
    ModuleCreator.create base info fs =
      ({ dirs := fs.dirs ++ [base ++ [pkgName info.name]],
         files := putFile (putFile (putFile (putFile (putFile fs.files
           (base ++ ["pyproject.toml"]) (ModuleCreator.pyprojectText info))
           (base ++ ["README.md"]) (readmeText info))
           (base ++ ["LICENSE"]) licenseText)
           (base ++ [pkgName info.name] ++ ["Core.py"]) (ModuleCreator.coreText info))
           (base ++ [pkgName info.name] ++ ["__init__.py"]) ModuleCreator.initText },
       none) := by
  have hbase1 : base ∈ fs.dirs := by simpa [FS.isDir] using hbase
  have hpy1 : base ++ ["pyproject.toml"] ∉ fs.dirs := by simpa [FS.isDir] using hpy
  have hrd1 : base ++ ["README.md"] ∉ fs.dirs := by simpa [FS.isDir] using hrd
  have hlc1 : base ++ ["LICENSE"] ∉ fs.dirs := by simpa [FS.isDir] using hlc
  have hco1 : base ++ [pkgName info.name] ++ ["Core.py"] ∉ fs.dirs := by
    simpa [FS.isDir] using hco
  have hin1 : base ++ [pkgName info.name] ++ ["__init__.py"] ∉ fs.dirs := by
    simpa [FS.isDir] using hin
  have hco2 : base ++ [pkgName info.name, "Core.py"] ∉ fs.dirs := by
    simpa using hco1
  have hin2 : base ++ [pkgName info.name, "__init__.py"] ∉ fs.dirs := by
    simpa using hin1
  have hcoMd2 : base ++ [pkgName info.name, "Core.py"] ≠ base ++ [pkgName info.name] := by
    intro h
    have := congrArg List.length h
    simp at this
  have hinMd2 : base ++ [pkgName info.name, "__init__.py"] ≠ base ++ [pkgName info.name] := by
    intro h
    have := congrArg List.length h
    simp at this
  simp only [ModuleCreator.create]
  rw [FS.mkdir_ok _ _ hmd (by rw [dropLast_snoc]; exact hbase)]
  simp only [bindFS, ModuleCreator._create_pyproject]
  rw [FS.writeText_ok _ _ _ (by simp [FS.isDir, List.mem_append, hpy1, hpy2])
    (by rw [dropLast_snoc]; simp [FS.isDir, List.mem_append, hbase1])]
  simp only [bindFS, ModuleCreator._create_readme]
  rw [FS.writeText_ok _ _ _ (by simp [FS.isDir, List.mem_append, hrd1, hrd2])
    (by rw [dropLast_snoc]; simp [FS.isDir, List.mem_append, hbase1])]
  simp only [bindFS, ModuleCreator._create_license]
  rw [FS.writeText_ok _ _ _ (by simp [FS.isDir, List.mem_append, hlc1, hlc2])
    (by rw [dropLast_snoc]; simp [FS.isDir, List.mem_append, hbase1])]
  simp only [bindFS, ModuleCreator._create_core_file]
  rw [FS.writeText_ok _ _ _ (by simp [FS.isDir, List.mem_append, hco2, hcoMd2])
    (by rw [dropLast_snoc]; simp [FS.isDir, List.mem_append])]
  simp only [bindFS, ModuleCreator._create_init_file]
  rw [FS.writeText_ok _ _ _ (by simp [FS.isDir, List.mem_append, hin2, hinMd2])
    (by rw [dropLast_snoc]; simp [FS.isDir, List.mem_append])]

/-- A successful `CLICreator.create` run, mirroring
`module_create_ok`. -/
theorem cli_create_ok (base : Path) (info : ProjectInfo) (fs : FS)
    (hbase : fs.isDir base = true)
    (hmd : fs.pathExists (base ++ [pkgName info.name]) = false)
    (hpy : fs.isDir (base ++ ["pyproject.toml"]) = false)
    (hpy2 : base ++ ["pyproject.toml"] ≠ base ++ [pkgName info.name])
    (hrd : fs.isDir (base ++ ["README.md"]) = false)
    (hrd2 : base ++ ["README.md"] ≠ base ++ [pkgName info.name])
    (hlc : fs.isDir (base ++ ["LICENSE"]) = false)
    (hlc2 : base ++ ["LICENSE"] ≠ base ++ [pkgName info.name])
    (hcl : fs.isDir (base ++ [pkgName info.name] ++ ["cli.py"]) = false)
    (hin : fs.isDir (base ++ [pkgName info.name] ++ ["__init__.py"]) = false) :
    CLICreator.create base info fs =
      ({ dirs := fs.dirs ++ [base ++ [pkgName info.name]],
         files := putFile (putFile (putFile (putFile (putFile fs.files
           (base ++ ["pyproject.toml"]) (CLICreator.pyprojectText info))
           (base ++ ["README.md"]) (readmeText info))
           (base ++ ["LICENSE"]) licenseText)
           (base ++ [pkgName info.name] ++ ["cli.py"]) (CLICreator.cliText info))
           (base ++ [pkgName info.name] ++ ["__init__.py"]) CLICreator.initText },
       none) := by
  have hbase1 : base ∈ fs.dirs := by simpa [FS.isDir] using hbase
  have hpy1 : base ++ ["pyproject.toml"] ∉ fs.dirs := by simpa [FS.isDir] using hpy
  have hrd1 : base ++ ["README.md"] ∉ fs.dirs := by simpa [FS.isDir] using hrd
  have hlc1 : base ++ ["LICENSE"] ∉ fs.dirs := by simpa [FS.isDir] using hlc
  have hcl2 : base ++ [pkgName info.name, "cli.py"] ∉ fs.dirs := by
    have h := hcl
    simp only [FS.isDir] at h
    simpa using of_decide_eq_false h
  have hin2 : base ++ [pkgName info.name, "__init__.py"] ∉ fs.dirs := by
    have h := hin
    simp only [FS.isDir] at h
    simpa using of_decide_eq_false h
  have hclMd2 : base ++ [pkgName info.name, "cli.py"] ≠ base ++ [pkgName info.name] := by
    intro h
    have := congrArg List.length h
    simp at this
  have hinMd2 : base ++ [pkgName info.name, "__init__.py"] ≠ base ++ [pkgName info.name] := by
    intro h
    have := congrArg List.length h
    simp at this
  simp only [CLICreator.create]
  rw [FS.mkdir_ok _ _ hmd (by rw [dropLast_snoc]; exact hbase)]
  simp only [bindFS, CLICreator._create_pyproject]
  rw [FS.writeText_ok _ _ _ (by simp [FS.isDir, List.mem_append, hpy1, hpy2])
    (by rw [dropLast_snoc]; simp [FS.isDir, List.mem_append, hbase1])]
  simp only [bindFS, CLICreator._create_readme]
  rw [FS.writeText_ok _ _ _ (by simp [FS.isDir, List.mem_append, hrd1, hrd2])
    (by rw [dropLast_snoc]; simp [FS.isDir, List.mem_append, hbase1])]
  simp only [bindFS, CLICreator._create_license]
  rw [FS.writeText_ok _ _ _ (by simp [FS.isDir, List.mem_append, hlc1, hlc2])
    (by rw [dropLast_snoc]; simp [FS.isDir, List.mem_append, hbase1])]
  simp only [bindFS, CLICreator._create_cli_file]
  rw [FS.writeText_ok _ _ _ (by simp [FS.isDir, List.mem_append, hcl2, hclMd2])
    (by rw [dropLast_snoc]; simp [FS.isDir, List.mem_append])]
  simp only [bindFS, CLICreator._create_init_file]
  rw [FS.writeText_ok _ _ _ (by simp [FS.isDir, List.mem_append, hin2, hinMd2])
    (by rw [dropLast_snoc]; simp [FS.isDir, List.mem_append])]

/-- A successful `AdapterCreator.create` run, mirroring
`module_create_ok` but with six files. -/
theorem adapter_create_ok (base : Path) (info : ProjectInfo) (fs : FS)
    (hbase : fs.isDir base = true)
    (hmd : fs.pathExists (base ++ [pkgName info.name]) = false)
    (hpy : fs.isDir (base ++ ["pyproject.toml"]) = false)
    (hpy2 : base ++ ["pyproject.toml"] ≠ base ++ [pkgName info.name])
    (hrd : fs.isDir (base ++ ["README.md"]) = false)
    (hrd2 : base ++ ["README.md"] ≠ base ++ [pkgName info.name])
    (hlc : fs.isDir (base ++ ["LICENSE"]) = false)
    (hlc2 : base ++ ["LICENSE"] ≠ base ++ [pkgName info.name])
    (hco : fs.isDir (base ++ [pkgName info.name] ++ ["Core.py"]) = false)
    (hcv : fs.isDir (base ++ [pkgName info.name] ++ ["Converter.py"]) = false)
    (hin : fs.isDir (base ++ [pkgName info.name] ++ ["__init__.py"]) = false) :
    AdapterCreator.create base info fs =
      ({ dirs := fs.dirs ++ [base ++ [pkgName info.name]],
         files := putFile (putFile (putFile (putFile (putFile (putFile fs.files
           (base ++ ["pyproject.toml"]) (AdapterCreator.pyprojectText info))
           (base ++ ["README.md"]) (readmeText info))
           (base ++ ["LICENSE"]) licenseText)
           (base ++ [pkgName info.name] ++ ["Core.py"]) (AdapterCreator.coreText info))
           (base ++ [pkgName info.name] ++ ["Converter.py"]) (AdapterCreator.converterText info))
           (base ++ [pkgName info.name] ++ ["__init__.py"]) (AdapterCreator.initText info) },
       none) := by
  have hbase1 : base ∈ fs.dirs := by simpa [FS.isDir] using hbase
  have hpy1 : base ++ ["pyproject.toml"] ∉ fs.dirs := by simpa [FS.isDir] using hpy
  have hrd1 : base ++ ["README.md"] ∉ fs.dirs := by simpa [FS.isDir] using hrd
  have hlc1 : base ++ ["LICENSE"] ∉ fs.dirs := by simpa [FS.isDir] using hlc
  have hco2 : base ++ [pkgName info.name, "Core.py"] ∉ fs.dirs := by
    have h := hco
    simp only [FS.isDir] at h
    simpa using of_decide_eq_false h
  have hcv2 : base ++ [pkgName info.name, "Converter.py"] ∉ fs.dirs := by
    have h := hcv
    simp only [FS.isDir] at h
    simpa using of_decide_eq_false h
  have hin2 : base ++ [pkgName info.name, "__init__.py"] ∉ fs.dirs := by
    have h := hin
    simp only [FS.isDir] at h
    simpa using of_decide_eq_false h
  have hcoMd2 : base ++ [pkgName info.name, "Core.py"] ≠ base ++ [pkgName info.name] := by
    intro h
    have := congrArg List.length h
    simp at this
  have hcvMd2 : base ++ [pkgName info.name, "Converter.py"] ≠ base ++ [pkgName info.name] := by
    intro h
    have := congrArg List.length h
    simp at this
  have hinMd2 : base ++ [pkgName info.name, "__init__.py"] ≠ base ++ [pkgName info.name] := by
    intro h
    have := congrArg List.length h
    simp at this
  simp only [AdapterCreator.create]
  rw [FS.mkdir_ok _ _ hmd (by rw [dropLast_snoc]; exact hbase)]
  simp only [bindFS, AdapterCreator._create_pyproject]
  rw [FS.writeText_ok _ _ _ (by simp [FS.isDir, List.mem_append, hpy1, hpy2])
    (by rw [dropLast_snoc]; simp [FS.isDir, List.mem_append, hbase1])]
  simp only [bindFS, AdapterCreator._create_readme]
  rw [FS.writeText_ok _ _ _ (by simp [FS.isDir, List.mem_append, hrd1, hrd2])
    (by rw [dropLast_snoc]; simp [FS.isDir, List.mem_append, hbase1])]
  simp only [bindFS, AdapterCreator._create_license]
  rw [FS.writeText_ok _ _ _ (by simp [FS.isDir, List.mem_append, hlc1, hlc2])
    (by rw [dropLast_snoc]; simp [FS.isDir, List.mem_append, hbase1])]
  simp only [bindFS, AdapterCreator._create_core_file]
  rw [FS.writeText_ok _ _ _ (by simp [FS.isDir, List.mem_append, hco2, hcoMd2])
    (by rw [dropLast_snoc]; simp [FS.isDir, List.mem_append])]
  simp only [bindFS, AdapterCreator._create_converter_file]
  rw [FS.writeText_ok _ _ _ (by simp [FS.isDir, List.mem_append, hcv2, hcvMd2])
    (by rw [dropLast_snoc]; simp [FS.isDir, List.mem_append])]
  simp only [bindFS, AdapterCreator._create_init_file]
  rw [FS.writeText_ok _ _ _ (by simp [FS.isDir, List.mem_append, hin2, hinMd2])
    (by rw [dropLast_snoc]; simp [FS.isDir, List.mem_append])]

/-! ## Build-level lemmas -/

theorem creators_module_eq :
    ScaffoldGenerator.creators "module" = some ModuleCreator.create := rfl

theorem creators_cli_eq :
    ScaffoldGenerator.creators "cli" = some CLICreator.create := rfl

theorem creators_adapter_eq :
    ScaffoldGenerator.creators "adapter" = some AdapterCreator.create := rfl

theorem creators_none_eq (t : String) (h1 : t ≠ "module") (h2 : t ≠ "cli")
    (h3 : t ≠ "adapter") : ScaffoldGenerator.creators t = none := by
  simp [ScaffoldGenerator.creators, h1, h2, h3]

theorem length_lt_snoc (xs : Path) (a : String) :
    xs.length < (xs ++ [a]).length := by
  simp

theorem snoc_ne_snoc_snoc (xs : Path) (a b c : String) :
    xs ++ [a] ≠ xs ++ [b] ++ [c] := by
  intro h
  have := congrArg List.length h
  simp at this

/-- **C1.** For every `ProjectInfo` name, the derived package identifier
equals the name with every hyphen replaced by an underscore, and the
derived short name equals the substring after the final hyphen (or the
whole name when the name contains no hyphen).  `pkgName` and `shortName`
are exactly the expressions all three creators interpolate (cli.py lines
135, 162, 183, 227, 255, 276, 331, 359, 380, 453, 498). -/
theorem derived_identifiers_match_spec (name : String) :
    pkgName name = specPackageId name ∧ shortName name = specShortName name := by
  constructor
  · simp only [pkgName, specPackageId, pyReplaceChar_eq_map]
  · simp only [shortName, specShortName, pyLast_pySplitChar]

/-- **C2.** The entry-point registration key written into each generated
manifest is derived deterministically from the name: for type `cli` it
is the lowercased short name (cli.py line 255), for `module` and
`adapter` it is the short name unchanged (lines 162, 359).  The three
`entryKey` definitions are the very interpolations that build the
`[project.entry-points]` line of each `pyprojectText`. -/
theorem entry_keys_match_spec (info : ProjectInfo) :
    ModuleCreator.entryKey info = specShortName info.name ∧
    AdapterCreator.entryKey info = specShortName info.name ∧
    CLICreator.entryKey info = String.mk (pyLower (specShortName info.name).data) := by
  have hs : shortName info.name = specShortName info.name := by
    simp only [shortName, specShortName, pyLast_pySplitChar]
  refine ⟨hs, hs, ?_⟩
  simp only [CLICreator.entryKey, shortNameLower, specShortName,
    pyLast_pySplitChar]

/-- **C3 counterexample.**  The claim says a build against an existing
non-empty target directory fails with `DirectoryExists`/`FileAlreadyExists`
and writes no additional files.  On the code, `base_dir.mkdir(parents=True,
exist_ok=True)` accepts the existing directory, the run succeeds (no
exception), and five files are written next to the pre-existing user
file. -/
theorem scaffold_rerun_counterexample :
    (ScaffoldGenerator._create_project_structure [] weatherInfo fsBaseJunk).2 = none ∧
    (ScaffoldGenerator._create_project_structure [] weatherInfo fsBaseJunk).1.files.map Prod.fst =
      [["ErisPulse-Weather", "data.txt"],
       ["ErisPulse-Weather", "pyproject.toml"],
       ["ErisPulse-Weather", "README.md"],
       ["ErisPulse-Weather", "LICENSE"],
       ["ErisPulse-Weather", "ErisPulse_Weather", "Core.py"],
       ["ErisPulse-Weather", "ErisPulse_Weather", "__init__.py"]] := by
  constructor
  · rfl
  · rfl

/-- **C3 (amended).**  Re-running `build` against an existing non-empty
target base directory does **not** fail: the base `mkdir` uses
`exist_ok=True`, so (provided the nested package subdirectory does not
itself already exist and no directory occupies a target file path) the
run completes without error and writes its files — including the
manifest — into the existing directory. -/
theorem scaffold_rerun_overwrites
    (out : Path) (info : ProjectInfo) (fs : FS) (junk : String)
    (hty : info.type = "module" ∨ info.type = "cli" ∨ info.type = "adapter")
    (_hexist : fs.isDir (out ++ [info.name]) = true)
    (_hnonempty : fs.isFile (out ++ [info.name] ++ [junk]) = true)
    (hbf : fs.isFile (out ++ [info.name]) = false)
    (hmdD : fs.isDir (out ++ [info.name] ++ [pkgName info.name]) = false)
    (hmdF : fs.isFile (out ++ [info.name] ++ [pkgName info.name]) = false)
    (hroot : ∀ f ∈ (["pyproject.toml", "README.md", "LICENSE"] : List String),
      fs.isDir (out ++ [info.name] ++ [f]) = false ∧ f ≠ pkgName info.name)
    (hpkg : ∀ g ∈ (["Core.py", "cli.py", "Converter.py", "__init__.py"] : List String),
      fs.isDir (out ++ [info.name] ++ [pkgName info.name] ++ [g]) = false) :
    (ScaffoldGenerator._create_project_structure out info fs).2 = none ∧
    ∃ c, (out ++ [info.name] ++ ["pyproject.toml"], c) ∈
      (ScaffoldGenerator._create_project_structure out info fs).1.files := by
  have hpyD := (hroot "pyproject.toml" (by simp)).1
  have hpyK := (hroot "pyproject.toml" (by simp)).2
  have hrdD := (hroot "README.md" (by simp)).1
  have hrdK := (hroot "README.md" (by simp)).2
  have hlcD := (hroot "LICENSE" (by simp)).1
  have hlcK := (hroot "LICENSE" (by simp)).2
  have hcoD := hpkg "Core.py" (by simp)
  have hclD := hpkg "cli.py" (by simp)
  have hcvD := hpkg "Converter.py" (by simp)
  have hinD := hpkg "__init__.py" (by simp)
  have Hbase :
      ((ancestors (out ++ [info.name])).foldl FS.addDir fs).isDir
        (out ++ [info.name]) = true := by
    rw [isDir_foldl_addDir]
    simp [mem_ancestors_self]
  have Hmd :
      ((ancestors (out ++ [info.name])).foldl FS.addDir fs).pathExists
        (out ++ [info.name] ++ [pkgName info.name]) = false := by
    have hnm : out ++ [info.name] ++ [pkgName info.name] ∉
        ancestors (out ++ [info.name]) :=
      not_mem_ancestors_of_longer _ _ (length_lt_snoc _ _)
    rw [FS.pathExists, isDir_foldl_addDir, isFile_foldl_addDir, hmdD, hmdF,
      decide_eq_false hnm]
    rfl
  have Htrans : ∀ p : Path, (out ++ [info.name]).length < p.length →
      fs.isDir p = false →
      ((ancestors (out ++ [info.name])).foldl FS.addDir fs).isDir p = false := by
    intro p hlen hd
    rw [isDir_foldl_addDir, hd,
      decide_eq_false (not_mem_ancestors_of_longer _ _ hlen)]
    rfl
  have HpyD := Htrans _ (length_lt_snoc _ _) hpyD
  have HrdD := Htrans _ (length_lt_snoc _ _) hrdD
  have HlcD := Htrans _ (length_lt_snoc _ _) hlcD
  have HcoD := Htrans _ (Nat.lt_trans (length_lt_snoc _ _) (length_lt_snoc _ _)) hcoD
  have HclD := Htrans _ (Nat.lt_trans (length_lt_snoc _ _) (length_lt_snoc _ _)) hclD
  have HcvD := Htrans _ (Nat.lt_trans (length_lt_snoc _ _) (length_lt_snoc _ _)) hcvD
  have HinD := Htrans _ (Nat.lt_trans (length_lt_snoc _ _) (length_lt_snoc _ _)) hinD
  have hpyMd := append_singleton_ne_of_ne (out ++ [info.name]) _ _ hpyK
  have hrdMd := append_singleton_ne_of_ne (out ++ [info.name]) _ _ hrdK
  have hlcMd := append_singleton_ne_of_ne (out ++ [info.name]) _ _ hlcK
  simp only [ScaffoldGenerator._create_project_structure]
  rw [FS.mkdirParentsExistOk_ok fs _ hbf]
  simp only [bindFS]
  rcases hty with h | h | h
  · rw [h, creators_module_eq]
    simp only [ScaffoldGenerator.runCreator]
    rw [module_create_ok _ info _ Hbase Hmd HpyD hpyMd HrdD hrdMd HlcD hlcMd
      HcoD HinD]
    refine ⟨rfl, ModuleCreator.pyprojectText info, ?_⟩
    apply mem_putFile_of_ne _ _ _ _ _ (snoc_ne_snoc_snoc _ _ _ _)
    apply mem_putFile_of_ne _ _ _ _ _ (snoc_ne_snoc_snoc _ _ _ _)
    apply mem_putFile_of_ne _ _ _ _ _ (append_singleton_ne_of_ne _ _ _ (by decide))
    apply mem_putFile_of_ne _ _ _ _ _ (append_singleton_ne_of_ne _ _ _ (by decide))
    exact mem_putFile_self _ _ _
  · rw [h, creators_cli_eq]
    simp only [ScaffoldGenerator.runCreator]
    rw [cli_create_ok _ info _ Hbase Hmd HpyD hpyMd HrdD hrdMd HlcD hlcMd
      HclD HinD]
    refine ⟨rfl, CLICreator.pyprojectText info, ?_⟩
    apply mem_putFile_of_ne _ _ _ _ _ (snoc_ne_snoc_snoc _ _ _ _)
    apply mem_putFile_of_ne _ _ _ _ _ (snoc_ne_snoc_snoc _ _ _ _)
    apply mem_putFile_of_ne _ _ _ _ _ (append_singleton_ne_of_ne _ _ _ (by decide))
    apply mem_putFile_of_ne _ _ _ _ _ (append_singleton_ne_of_ne _ _ _ (by decide))
    exact mem_putFile_self _ _ _
  · rw [h, creators_adapter_eq]
    simp only [ScaffoldGenerator.runCreator]
    rw [adapter_create_ok _ info _ Hbase Hmd HpyD hpyMd HrdD hrdMd HlcD hlcMd
      HcoD HcvD HinD]
    refine ⟨rfl, AdapterCreator.pyprojectText info, ?_⟩
    apply mem_putFile_of_ne _ _ _ _ _ (snoc_ne_snoc_snoc _ _ _ _)
    apply mem_putFile_of_ne _ _ _ _ _ (snoc_ne_snoc_snoc _ _ _ _)
    apply mem_putFile_of_ne _ _ _ _ _ (snoc_ne_snoc_snoc _ _ _ _)
    apply mem_putFile_of_ne _ _ _ _ _ (append_singleton_ne_of_ne _ _ _ (by decide))
    apply mem_putFile_of_ne _ _ _ _ _ (append_singleton_ne_of_ne _ _ _ (by decide))
    exact mem_putFile_self _ _ _

/-- Witness for `scaffold_rerun_overwrites` at the concrete re-run
input. -/
theorem scaffold_rerun_overwrites_witness :
    (ScaffoldGenerator._create_project_structure [] weatherInfo fsBaseJunk).2 = none ∧
    ∃ c, ([] ++ [weatherInfo.name] ++ ["pyproject.toml"], c) ∈
      (ScaffoldGenerator._create_project_structure [] weatherInfo fsBaseJunk).1.files :=
  scaffold_rerun_overwrites [] weatherInfo fsBaseJunk "data.txt"
    (Or.inl rfl) (by decide) (by decide) (by decide) (by decide) (by decide)
    (by decide) (by decide)

/-- **C4 counterexample.**  A stale `pyproject.toml` left by a previous
partial run does not make the build fail: the run succeeds and
`write_text` silently replaces the old contents with the freshly
generated manifest. -/
theorem overwrite_counterexample :
    (ScaffoldGenerator._create_project_structure [] weatherInfo fsStalePyproject).2 = none ∧
    (ScaffoldGenerator._create_project_structure [] weatherInfo fsStalePyproject).1.readText
      ["ErisPulse-Weather", "pyproject.toml"] =
      some (ModuleCreator.pyprojectText weatherInfo) ∧
    ModuleCreator.pyprojectText weatherInfo ≠ "old contents" := by
  refine ⟨rfl, rfl, ?_⟩
  decide

/-- **C4 (amended).**  The generator never checks whether a target file
already exists: a pre-existing `pyproject.toml` is silently overwritten —
after a successful run the file holds the freshly generated manifest of
the selected type.  The only pre-existence check on the whole run is the
bare `mkdir()` of the package subdirectory. -/
theorem overwrite_amended
    (out : Path) (info : ProjectInfo) (fs : FS) (old : String)
    (hty : info.type = "module" ∨ info.type = "cli" ∨ info.type = "adapter")
    (_hstale : (out ++ [info.name] ++ ["pyproject.toml"], old) ∈ fs.files)
    (hbf : fs.isFile (out ++ [info.name]) = false)
    (hmdD : fs.isDir (out ++ [info.name] ++ [pkgName info.name]) = false)
    (hmdF : fs.isFile (out ++ [info.name] ++ [pkgName info.name]) = false)
    (hroot : ∀ f ∈ (["pyproject.toml", "README.md", "LICENSE"] : List String),
      fs.isDir (out ++ [info.name] ++ [f]) = false ∧ f ≠ pkgName info.name)
    (hpkg : ∀ g ∈ (["Core.py", "cli.py", "Converter.py", "__init__.py"] : List String),
      fs.isDir (out ++ [info.name] ++ [pkgName info.name] ++ [g]) = false) :
    (ScaffoldGenerator._create_project_structure out info fs).2 = none ∧
    (info.type = "module" →
      (ScaffoldGenerator._create_project_structure out info fs).1.readText
        (out ++ [info.name] ++ ["pyproject.toml"]) =
        some (ModuleCreator.pyprojectText info)) ∧
    (info.type = "cli" →
      (ScaffoldGenerator._create_project_structure out info fs).1.readText
        (out ++ [info.name] ++ ["pyproject.toml"]) =
        some (CLICreator.pyprojectText info)) ∧
    (info.type = "adapter" →
      (ScaffoldGenerator._create_project_structure out info fs).1.readText
        (out ++ [info.name] ++ ["pyproject.toml"]) =
        some (AdapterCreator.pyprojectText info)) := by
  have hpyD := (hroot "pyproject.toml" (by simp)).1
  have hpyK := (hroot "pyproject.toml" (by simp)).2
  have hrdD := (hroot "README.md" (by simp)).1
  have hrdK := (hroot "README.md" (by simp)).2
  have hlcD := (hroot "LICENSE" (by simp)).1
  have hlcK := (hroot "LICENSE" (by simp)).2
  have hcoD := hpkg "Core.py" (by simp)
  have hclD := hpkg "cli.py" (by simp)
  have hcvD := hpkg "Converter.py" (by simp)
  have hinD := hpkg "__init__.py" (by simp)
  have Hbase :
      ((ancestors (out ++ [info.name])).foldl FS.addDir fs).isDir
        (out ++ [info.name]) = true := by
    rw [isDir_foldl_addDir]
    simp [mem_ancestors_self]
  have Hmd :
      ((ancestors (out ++ [info.name])).foldl FS.addDir fs).pathExists
        (out ++ [info.name] ++ [pkgName info.name]) = false := by
    have hnm : out ++ [info.name] ++ [pkgName info.name] ∉
        ancestors (out ++ [info.name]) :=
      not_mem_ancestors_of_longer _ _ (length_lt_snoc _ _)
    rw [FS.pathExists, isDir_foldl_addDir, isFile_foldl_addDir, hmdD, hmdF,
      decide_eq_false hnm]
    rfl
  have Htrans : ∀ p : Path, (out ++ [info.name]).length < p.length →
      fs.isDir p = false →
      ((ancestors (out ++ [info.name])).foldl FS.addDir fs).isDir p = false := by
    intro p hlen hd
    rw [isDir_foldl_addDir, hd,
      decide_eq_false (not_mem_ancestors_of_longer _ _ hlen)]
    rfl
  have HpyD := Htrans _ (length_lt_snoc _ _) hpyD
  have HrdD := Htrans _ (length_lt_snoc _ _) hrdD
  have HlcD := Htrans _ (length_lt_snoc _ _) hlcD
  have HcoD := Htrans _ (Nat.lt_trans (length_lt_snoc _ _) (length_lt_snoc _ _)) hcoD
  have HclD := Htrans _ (Nat.lt_trans (length_lt_snoc _ _) (length_lt_snoc _ _)) hclD
  have HcvD := Htrans _ (Nat.lt_trans (length_lt_snoc _ _) (length_lt_snoc _ _)) hcvD
  have HinD := Htrans _ (Nat.lt_trans (length_lt_snoc _ _) (length_lt_snoc _ _)) hinD
  have hpyMd := append_singleton_ne_of_ne (out ++ [info.name]) _ _ hpyK
  have hrdMd := append_singleton_ne_of_ne (out ++ [info.name]) _ _ hrdK
  have hlcMd := append_singleton_ne_of_ne (out ++ [info.name]) _ _ hlcK
  simp only [ScaffoldGenerator._create_project_structure]
  rw [FS.mkdirParentsExistOk_ok fs _ hbf]
  simp only [bindFS]
  rcases hty with h | h | h
  · rw [h, creators_module_eq]
    simp only [ScaffoldGenerator.runCreator]
    rw [module_create_ok _ info _ Hbase Hmd HpyD hpyMd HrdD hrdMd HlcD hlcMd
      HcoD HinD]
    refine ⟨rfl, fun _ => ?_, fun ht => absurd ht (by decide),
      fun ht => absurd ht (by decide)⟩
    simp only [FS.readText]
    rw [filter_key_putFile_ne _ _ _ _ (Ne.symm (snoc_ne_snoc_snoc _ _ _ _)),
      filter_key_putFile_ne _ _ _ _ (Ne.symm (snoc_ne_snoc_snoc _ _ _ _)),
      filter_key_putFile_ne _ _ _ _ (append_singleton_ne_of_ne _ _ _ (by decide)),
      filter_key_putFile_ne _ _ _ _ (append_singleton_ne_of_ne _ _ _ (by decide)),
      filter_key_putFile_self]
    rfl
  · rw [h, creators_cli_eq]
    simp only [ScaffoldGenerator.runCreator]
    rw [cli_create_ok _ info _ Hbase Hmd HpyD hpyMd HrdD hrdMd HlcD hlcMd
      HclD HinD]
    refine ⟨rfl, fun ht => absurd ht (by decide), fun _ => ?_,
      fun ht => absurd ht (by decide)⟩
    simp only [FS.readText]
    rw [filter_key_putFile_ne _ _ _ _ (Ne.symm (snoc_ne_snoc_snoc _ _ _ _)),
      filter_key_putFile_ne _ _ _ _ (Ne.symm (snoc_ne_snoc_snoc _ _ _ _)),
      filter_key_putFile_ne _ _ _ _ (append_singleton_ne_of_ne _ _ _ (by decide)),
      filter_key_putFile_ne _ _ _ _ (append_singleton_ne_of_ne _ _ _ (by decide)),
      filter_key_putFile_self]
    rfl
  · rw [h, creators_adapter_eq]
    simp only [ScaffoldGenerator.runCreator]
    rw [adapter_create_ok _ info _ Hbase Hmd HpyD hpyMd HrdD hrdMd HlcD hlcMd
      HcoD HcvD HinD]
    refine ⟨rfl, fun ht => absurd ht (by decide),
      fun ht => absurd ht (by decide), fun _ => ?_⟩
    simp only [FS.readText]
    rw [filter_key_putFile_ne _ _ _ _ (Ne.symm (snoc_ne_snoc_snoc _ _ _ _)),
      filter_key_putFile_ne _ _ _ _ (Ne.symm (snoc_ne_snoc_snoc _ _ _ _)),
      filter_key_putFile_ne _ _ _ _ (Ne.symm (snoc_ne_snoc_snoc _ _ _ _)),
      filter_key_putFile_ne _ _ _ _ (append_singleton_ne_of_ne _ _ _ (by decide)),
      filter_key_putFile_ne _ _ _ _ (append_singleton_ne_of_ne _ _ _ (by decide)),
      filter_key_putFile_self]
    rfl

/-- Witness for `overwrite_amended` at the stale-manifest input. -/
theorem overwrite_amended_witness :
    (ScaffoldGenerator._create_project_structure [] weatherInfo fsStalePyproject).2 = none ∧
    (weatherInfo.type = "module" →
      (ScaffoldGenerator._create_project_structure [] weatherInfo fsStalePyproject).1.readText
        ([] ++ [weatherInfo.name] ++ ["pyproject.toml"]) =
        some (ModuleCreator.pyprojectText weatherInfo)) ∧
    (weatherInfo.type = "cli" →
      (ScaffoldGenerator._create_project_structure [] weatherInfo fsStalePyproject).1.readText
        ([] ++ [weatherInfo.name] ++ ["pyproject.toml"]) =
        some (CLICreator.pyprojectText weatherInfo)) ∧
    (weatherInfo.type = "adapter" →
      (ScaffoldGenerator._create_project_structure [] weatherInfo fsStalePyproject).1.readText
        ([] ++ [weatherInfo.name] ++ ["pyproject.toml"]) =
        some (AdapterCreator.pyprojectText weatherInfo)) :=
  overwrite_amended [] weatherInfo fsStalePyproject "old contents"
    (Or.inl rfl) (by decide) (by decide) (by decide) (by decide) (by decide)
    (by decide)

/-- **C5 counterexample.**  For a type outside `{module, cli, adapter}`
the build does fail (with a `KeyError` from the creators-dictionary
lookup), but only **after** `base_dir.mkdir(parents=True, exist_ok=True)`
has run: the base directory exists in the resulting filesystem, so file
I/O does begin and a partial (empty) directory is created. -/
theorem invalid_type_counterexample :
    (ScaffoldGenerator._create_project_structure [] weirdInfo fsEmpty).2 =
      some (.keyError "plugin") ∧
    (ScaffoldGenerator._create_project_structure [] weirdInfo fsEmpty).1.isDir
      ["ErisPulse-Widget"] = true := by
  constructor
  · rfl
  · rfl

/-- **C5 (amended).**  An unknown project type makes the build fail with
`KeyError` on the creators-dictionary lookup, but the failure happens
after the base-directory `mkdir`: the run leaves the created (empty)
base directory behind, while no file is written. -/
theorem invalid_type_amended (out : Path) (info : ProjectInfo) (fs : FS)
    (h1 : info.type ≠ "module") (h2 : info.type ≠ "cli")
    (h3 : info.type ≠ "adapter")
    (hbf : fs.isFile (out ++ [info.name]) = false) :
    ScaffoldGenerator._create_project_structure out info fs =
      ((ancestors (out ++ [info.name])).foldl FS.addDir fs,
       some (.keyError info.type)) ∧
    ((ancestors (out ++ [info.name])).foldl FS.addDir fs).isDir
      (out ++ [info.name]) = true ∧
    ((ancestors (out ++ [info.name])).foldl FS.addDir fs).files = fs.files := by
  refine ⟨?_, ?_, files_foldl_addDir _ _⟩
  · simp only [ScaffoldGenerator._create_project_structure]
    rw [FS.mkdirParentsExistOk_ok fs _ hbf]
    simp only [bindFS]
    rw [creators_none_eq info.type h1 h2 h3]
    rfl
  · rw [isDir_foldl_addDir]
    simp [mem_ancestors_self]

/-- Witness for `invalid_type_amended` at the unknown-type input. -/
theorem invalid_type_amended_witness :
    ScaffoldGenerator._create_project_structure [] weirdInfo fsEmpty =
      ((ancestors ([] ++ [weirdInfo.name])).foldl FS.addDir fsEmpty,
       some (.keyError weirdInfo.type)) ∧
    ((ancestors ([] ++ [weirdInfo.name])).foldl FS.addDir fsEmpty).isDir
      ([] ++ [weirdInfo.name]) = true ∧
    ((ancestors ([] ++ [weirdInfo.name])).foldl FS.addDir fsEmpty).files =
      fsEmpty.files :=
  invalid_type_amended [] weirdInfo fsEmpty (by decide) (by decide) (by decide)
    (by decide)

/-- **C6 counterexample.**  The §8 scenario claims the package
subdirectory is `erispulse_weather`; the code derives the package
identifier case-preservingly (`name.replace("-", "_")`), so the build
creates `ErisPulse_Weather` and no `erispulse_weather` directory or
files exist. -/
theorem weather_scenario_counterexample :
    (ScaffoldGenerator._create_project_structure [] weatherInfo fsEmpty).1.isDir
      ["ErisPulse-Weather", "erispulse_weather"] = false ∧
    (ScaffoldGenerator._create_project_structure [] weatherInfo fsEmpty).1.readText
      ["ErisPulse-Weather", "erispulse_weather", "__init__.py"] = none ∧
    (ScaffoldGenerator._create_project_structure [] weatherInfo fsEmpty).1.isDir
      ["ErisPulse-Weather", "ErisPulse_Weather"] = true := by
  refine ⟨rfl, rfl, rfl⟩

/-- **C6 (amended).**  For
`ProjectInfo{type=module, name="ErisPulse-Weather", version="1.0.0"}` the
build creates `ErisPulse-Weather/ErisPulse_Weather/{__init__.py, Core.py}`
(the package directory keeps the name's capitalisation) plus
`pyproject.toml`, `README.md` and `LICENSE` at the root, and the
manifest's entry-point key — `ModuleCreator.entryKey`, interpolated into
`ModuleCreator.pyprojectText` — equals `"Weather"`. -/
theorem weather_scenario_amended :
    (ScaffoldGenerator._create_project_structure [] weatherInfo fsEmpty).2 = none ∧
    (ScaffoldGenerator._create_project_structure [] weatherInfo fsEmpty).1.dirs =
      [[], ["ErisPulse-Weather"], ["ErisPulse-Weather", "ErisPulse_Weather"]] ∧
    (ScaffoldGenerator._create_project_structure [] weatherInfo fsEmpty).1.files.map Prod.fst =
      [["ErisPulse-Weather", "pyproject.toml"],
       ["ErisPulse-Weather", "README.md"],
       ["ErisPulse-Weather", "LICENSE"],
       ["ErisPulse-Weather", "ErisPulse_Weather", "Core.py"],
       ["ErisPulse-Weather", "ErisPulse_Weather", "__init__.py"]] ∧
    (ScaffoldGenerator._create_project_structure [] weatherInfo fsEmpty).1.readText
      ["ErisPulse-Weather", "pyproject.toml"] =
      some (ModuleCreator.pyprojectText weatherInfo) ∧
    ModuleCreator.entryKey weatherInfo = "Weather" := by
  refine ⟨rfl, rfl, rfl, rfl, rfl⟩

/-- **C7.**  When the prompt stage yields an empty `ProjectInfo` (the
user declined the confirmation), `handle_scaffold` returns at once: the
filesystem is unchanged and no error is raised — a clean no-op. -/
theorem cancelled_input_is_noop (out : Path) (fs : FS) :
    ScaffoldGenerator.handle_scaffold out none fs = (fs, none) := rfl

/-- **C8 counterexample.**  On the §8 scenario the build succeeds and
writes five files, yet its Python return value is `None` — not the list
of written paths. -/
theorem build_return_counterexample :
    (ScaffoldGenerator.buildResult [] weatherInfo fsEmpty).1.2 = none ∧
    (ScaffoldGenerator.buildResult [] weatherInfo fsEmpty).1.1.files.map Prod.fst =
      [["ErisPulse-Weather", "pyproject.toml"],
       ["ErisPulse-Weather", "README.md"],
       ["ErisPulse-Weather", "LICENSE"],
       ["ErisPulse-Weather", "ErisPulse_Weather", "Core.py"],
       ["ErisPulse-Weather", "ErisPulse_Weather", "__init__.py"]] ∧
    (ScaffoldGenerator.buildResult [] weatherInfo fsEmpty).2 ≠
      some [["ErisPulse-Weather", "pyproject.toml"],
        ["ErisPulse-Weather", "README.md"],
        ["ErisPulse-Weather", "LICENSE"],
        ["ErisPulse-Weather", "ErisPulse_Weather", "Core.py"],
        ["ErisPulse-Weather", "ErisPulse_Weather", "__init__.py"]] := by
  refine ⟨rfl, rfl, ?_⟩
  simp [ScaffoldGenerator.buildResult]

/-- **C8 (amended).**  `_create_project_structure` returns no value at
all (Python `None`): the written paths are only shown by walking the
directory tree for display, never returned to the caller. -/
theorem build_returns_none (out : Path) (info : ProjectInfo) (fs : FS) :
    (ScaffoldGenerator.buildResult out info fs).2 = none := rfl

/-- **C9.**  For every project type the generated `__init__.py` imports
exactly the symbol that the generated manifest's entry-point value names:
`Main` for module (cli.py lines 162, 220), `cli_register` for cli (lines
255, 324), and the short-name adapter class for adapter (lines 359,
498–499) — so the declared entry-point target is always exported by the
package. -/
theorem init_exports_entry_symbol (info : ProjectInfo) :
    ModuleCreator.initText = "from .Core import " ++ ModuleCreator.entrySymbol ∧
    CLICreator.initText = "from .cli import " ++ CLICreator.entrySymbol ∧
    AdapterCreator.initText info =
      "from .Core import " ++ AdapterCreator.entrySymbol info := by
  refine ⟨rfl, rfl, rfl⟩

/-- **C10.**  If the nested package subdirectory already exists when a
creator runs, the bare `mkdir()` — the creator's first statement —
raises `FileExistsError` and the run stops with the filesystem exactly
as it was: no template file is written.  This holds for all three
creators. -/
theorem existing_pkgdir_blocks_creator (base : Path) (info : ProjectInfo)
    (fs : FS)
    (h : fs.pathExists (base ++ [pkgName info.name]) = true) :
    ModuleCreator.create base info fs =
      (fs, some (.fileExists (base ++ [pkgName info.name]))) ∧
    CLICreator.create base info fs =
      (fs, some (.fileExists (base ++ [pkgName info.name]))) ∧
    AdapterCreator.create base info fs =
      (fs, some (.fileExists (base ++ [pkgName info.name]))) := by
  have hm := FS.mkdir_fails fs _ h
  refine ⟨?_, ?_, ?_⟩
  · simp only [ModuleCreator.create]
    rw [hm]
    rfl
  · simp only [CLICreator.create]
    rw [hm]
    rfl
  · simp only [AdapterCreator.create]
    rw [hm]
    rfl

/-- Witness for `existing_pkgdir_blocks_creator` with the package
subdirectory already present. -/
theorem existing_pkgdir_blocks_creator_witness :
    ModuleCreator.create ["ErisPulse-Weather"] weatherInfo fsPkgDir =
      (fsPkgDir, some (.fileExists (["ErisPulse-Weather"] ++ [pkgName weatherInfo.name]))) ∧
    CLICreator.create ["ErisPulse-Weather"] weatherInfo fsPkgDir =
      (fsPkgDir, some (.fileExists (["ErisPulse-Weather"] ++ [pkgName weatherInfo.name]))) ∧
    AdapterCreator.create ["ErisPulse-Weather"] weatherInfo fsPkgDir =
      (fsPkgDir, some (.fileExists (["ErisPulse-Weather"] ++ [pkgName weatherInfo.name]))) :=
  existing_pkgdir_blocks_creator ["ErisPulse-Weather"] weatherInfo fsPkgDir
    (by decide)

end ErisPulseScaffold
